import Mathlib

/-!
Shallow embedding of the Mission Control — Satellite Tracker core
(`models.py`, `simulation.py`).

Modelling conventions:
* Python floats are modelled as exact rationals `ℚ`; the decimal literals of
  the source (0.1, 1.5, 2.0, 5.0, 0.05, 0.0005, 0.3) become the corresponding
  rationals.
* `math.cos(math.radians a)` / `math.sin(math.radians a)` are modelled by an
  arbitrary trig oracle `Trig` (two functions `ℚ → ℚ`), threaded through the
  motion update.  No claim under verification depends on the numeric values of
  cosine or sine, so every theorem quantifies over the oracle.
* `random.*` draws are modelled as explicit inputs (`GenDraw`, `TickRand`)
  together with well-formedness predicates stating the ranges the Python
  `random.uniform` / `random.random` / `random.choice` calls guarantee.
* `distance_to` returns `Real.sqrt` of the (rational) sum of squares, exactly
  as the source computes it.  The boolean collision/proximity checks compare
  the squared distance against the squared (positive) threshold; the theorem
  for claim C1 proves this equivalent to the source's `sqrt dist < threshold`
  comparison.
* Python strings for satellite status are modelled by the inductive `Status`.
-/

/-- Satellite status values: the four strings used by `models.py`. -/
inductive Status where
  | nominal
  | warning
  | critical
  | deorbited
deriving DecidableEq, Repr

/-- Debris size classes: the three strings used by `models.py`. -/
inductive DebrisSize where
  | small
  | medium
  | large
deriving DecidableEq, Repr

/-- Trig oracle standing in for `math.cos(math.radians ·)` and
`math.sin(math.radians ·)` in the motion update. -/
structure Trig where
  cos : ℚ → ℚ
  sin : ℚ → ℚ

/-- Python float modulo (`a % b` for `b > 0`): `a - b * ⌊a / b⌋`. -/
def qmod (a b : ℚ) : ℚ := a - b * ⌊a / b⌋

/-- Base class `CelestialObject` of `models.py`: name, position, speed,
heading angle, active flag.  The constructor sets `active := true` and stores
the angle exactly as given (no normalisation). -/
structure CelestialObject where
  name : String
  x : ℚ
  y : ℚ
  speed : ℚ
  angle : ℚ
  active : Bool
deriving DecidableEq, Repr

/-- `CelestialObject.__init__`: stores the five arguments, `active = True`. -/
def CelestialObject.make (name : String) (x y speed angle : ℚ) : CelestialObject :=
  { name := name, x := x, y := y, speed := speed, angle := angle, active := true }

/-- `CelestialObject.deactivate`. -/
def CelestialObject.deactivate (o : CelestialObject) : CelestialObject :=
  { o with active := false }

/-- `CelestialObject.update`: no-op when inactive, otherwise advance the
position by `speed * (cos angle, sin angle)` (trig via the oracle `T`). -/
def CelestialObject.update (T : Trig) (o : CelestialObject) : CelestialObject :=
  if o.active then
    { o with x := o.x + o.speed * T.cos o.angle, y := o.y + o.speed * T.sin o.angle }
  else o

/-- Squared value of the quantity inside the square root of
`CelestialObject.distance_to`: `(x1 + x2)^2 + (y1 + y2)^2` — the source sums
the coordinates instead of subtracting them. -/
def CelestialObject.distSq (a b : CelestialObject) : ℚ :=
  (a.x + b.x) ^ 2 + (a.y + b.y) ^ 2

/-- `CelestialObject.distance_to`: `sqrt((x1 + x2)^2 + (y1 + y2)^2)`. -/
noncomputable def CelestialObject.distance_to (a b : CelestialObject) : ℝ :=
  Real.sqrt ((CelestialObject.distSq a b : ℚ) : ℝ)

/-- `Satellite` extends the base object with fuel and a status; the
constructor (default fuel 100.0) sets status to `nominal` unconditionally. -/
structure Satellite extends CelestialObject where
  fuel : ℚ
  status : Status
deriving DecidableEq, Repr

/-- `Satellite.__init__`: base constructor plus `fuel` and status `nominal`. -/
def Satellite.make (name : String) (x y speed angle : ℚ) (fuel : ℚ := 100) : Satellite :=
  { CelestialObject.make name x y speed angle with fuel := fuel, status := Status.nominal }

/-- `Satellite._update_status`: clamp fuel to 0 when it is ≤ 0 (status
`critical`), else `warning` below 20, else `nominal`. -/
def Satellite.updateStatus (s : Satellite) : Satellite :=
  if s.fuel ≤ 0 then { s with fuel := 0, status := Status.critical }
  else if s.fuel < 20 then { s with status := Status.warning }
  else { s with status := Status.nominal }

/-- `Satellite.change_angle`: no-op when fuel ≤ 0; otherwise set the angle to
`new_angle % 360` (Python float modulo), burn 2.0 fuel, recompute status. -/
def Satellite.change_angle (s : Satellite) (newAngle : ℚ) : Satellite :=
  if s.fuel ≤ 0 then s
  else Satellite.updateStatus { s with angle := qmod newAngle 360, fuel := s.fuel - 2 }

/-- `Satellite.change_speed`: no-op when fuel ≤ 0; otherwise set speed to
`max(0.5, min(new_speed, 5.0))`, burn 1.5 fuel, recompute status. -/
def Satellite.change_speed (s : Satellite) (newSpeed : ℚ) : Satellite :=
  if s.fuel ≤ 0 then s
  else Satellite.updateStatus { s with speed := max (1/2) (min newSpeed 5), fuel := s.fuel - 3/2 }

/-- `Satellite.deorbit`: when fuel ≥ 5.0 set status `deorbited`, burn 5.0
fuel, deactivate and return `true`; otherwise return `false` unchanged. -/
def Satellite.deorbit (s : Satellite) : Bool × Satellite :=
  if 5 ≤ s.fuel then
    (true, { s with status := Status.deorbited, fuel := s.fuel - 5, active := false })
  else (false, s)

/-- `Satellite.update` (override): base motion update, then — if still
active — passive drain of 0.1 fuel and a status recomputation. -/
def Satellite.update (T : Trig) (s : Satellite) : Satellite :=
  let s1 : Satellite := { s with toCelestialObject := CelestialObject.update T s.toCelestialObject }
  if s1.active then Satellite.updateStatus { s1 with fuel := s1.fuel - 1/10 } else s1

/-- `Debris` extends the base object with an immutable size class. -/
structure Debris extends CelestialObject where
  size : DebrisSize
deriving DecidableEq, Repr

/-- `Debris.danger_radius`: `small → 15`, `medium → 25`, `large → 40`
(the Python dict lookup's default 15 is unreachable over the enum). -/
def Debris.danger_radius (d : Debris) : ℚ :=
  match d.size with
  | DebrisSize.small => 15
  | DebrisSize.medium => 25
  | DebrisSize.large => 40

/-- `Debris.update`: debris inherit the base motion update unchanged. -/
def Debris.update (T : Trig) (d : Debris) : Debris :=
  { d with toCelestialObject := CelestialObject.update T d.toCelestialObject }

/-- The fixed name pool `DebrisField.DEBRIS_NAMES`. -/
def DEBRIS_NAMES : List String :=
  ["Alpha", "Beta", "Gamma", "Delta", "Epsilon",
   "Zeta", "Eta", "Theta", "Iota", "Kappa"]

/-- `DebrisField` state: arena size and the monotone name counter. -/
structure DebrisField where
  width : ℚ
  height : ℚ
  counter : ℕ
deriving DecidableEq, Repr

/-- The four arena edges `random.choice(["top","bottom","left","right"])`. -/
inductive Side where
  | top
  | bottom
  | left
  | right
deriving DecidableEq, Repr

/-- One set of random draws consumed by `DebrisField.generate`: the edge, the
uniform position along it, the uniform heading angle, the weighted size, the
uniform speed and the index of the name chosen from the pool. -/
structure GenDraw where
  side : Side
  pos : ℚ
  angle : ℚ
  size : DebrisSize
  speed : ℚ
  nameIdx : ℕ
deriving DecidableEq, Repr

/-- Lower end of the heading range `random.uniform` draws from, per edge. -/
def Side.angleLo : Side → ℚ
  | Side.top => 150
  | Side.bottom => -30
  | Side.left => -45
  | Side.right => 135

/-- Upper end of the heading range `random.uniform` draws from, per edge. -/
def Side.angleHi : Side → ℚ
  | Side.top => 210
  | Side.bottom => 30
  | Side.left => 45
  | Side.right => 225

/-- Length of the edge the position is drawn along: the arena width for the
top/bottom edges, the height for the left/right edges. -/
def Side.posHi (W H : ℚ) : Side → ℚ
  | Side.top => W
  | Side.bottom => W
  | Side.left => H
  | Side.right => H

/-- Ranges that the `random` calls of `DebrisField.generate` guarantee:
position uniform over the edge, angle uniform over the per-edge range
(top `[150,210]`, bottom `[-30,30]`, left `[-45,45]`, right `[135,225]`),
speed uniform over `[1,3]`, name index into the ten-name pool. -/
def GenDraw.Wf (W H : ℚ) (g : GenDraw) : Prop :=
  0 ≤ g.pos ∧ g.pos ≤ g.side.posHi W H ∧
  g.side.angleLo ≤ g.angle ∧ g.angle ≤ g.side.angleHi ∧
  1 ≤ g.speed ∧ g.speed ≤ 3 ∧ g.nameIdx < 10

/-- `DebrisField.generate`: spawn one debris on the drawn edge with the drawn
heading, size, speed, and the name `pool[i] + "-" + counter`; increment the
counter. -/
def DebrisField.generate (f : DebrisField) (g : GenDraw) : Debris × DebrisField :=
  let xy : ℚ × ℚ :=
    match g.side with
    | Side.top => (g.pos, 0)
    | Side.bottom => (g.pos, f.height)
    | Side.left => (0, g.pos)
    | Side.right => (f.width, g.pos)
  let name := (DEBRIS_NAMES.getD g.nameIdx "") ++ "-" ++ toString f.counter
  ({ name := name, x := xy.1, y := xy.2, speed := g.speed, angle := g.angle,
     active := true, size := g.size },
   { f with counter := f.counter + 1 })

/-- Sum type over the two concrete entity kinds, standing in for the
`isinstance` dispatch in `CollisionDetector.check_collision`. -/
inductive SpaceObject where
  | sat : Satellite → SpaceObject
  | deb : Debris → SpaceObject
deriving DecidableEq, Repr

/-- The underlying base object of either entity kind. -/
def SpaceObject.obj : SpaceObject → CelestialObject
  | SpaceObject.sat s => s.toCelestialObject
  | SpaceObject.deb d => d.toCelestialObject

/-- `CollisionDetector.SATELLITE_RADIUS`. -/
def SATELLITE_RADIUS : ℚ := 20

/-- `CollisionDetector.check_collision`: satellite–debris collide when the
distance is below `20 + danger_radius`, satellite–satellite below `40`, any
other pair never.  The source compares `distance_to < threshold`; since the
thresholds are positive this is equivalent to comparing the squared distance
with the squared threshold (proved in `spec_C1_distance_metric`), which keeps
the predicate decidable. -/
def check_collision (o1 o2 : SpaceObject) : Bool :=
  match o1, o2 with
  | SpaceObject.sat _, SpaceObject.deb d =>
      decide (CelestialObject.distSq o1.obj o2.obj < (SATELLITE_RADIUS + d.danger_radius) ^ 2)
  | SpaceObject.deb d, SpaceObject.sat _ =>
      decide (CelestialObject.distSq o1.obj o2.obj < (SATELLITE_RADIUS + d.danger_radius) ^ 2)
  | SpaceObject.sat _, SpaceObject.sat _ =>
      decide (CelestialObject.distSq o1.obj o2.obj < (SATELLITE_RADIUS * 2) ^ 2)
  | SpaceObject.deb _, SpaceObject.deb _ => false

/-- `CollisionDetector.check_proximity_warning` at its default
`warning_distance = 80.0` (the simulation never passes another value):
`distance_to < 80`, via the equivalent squared comparison. -/
def check_proximity_warning (s : Satellite) (o : SpaceObject) : Bool :=
  decide (CelestialObject.distSq s.toCelestialObject o.obj < 80 ^ 2)

/-- `Simulation.AREA_WIDTH`. -/
def AREA_WIDTH : ℚ := 800

/-- `Simulation.AREA_HEIGHT`. -/
def AREA_HEIGHT : ℚ := 600

/-- The mutable state of `Simulation`. -/
structure Simulation where
  satellites : List Satellite
  debris_list : List Debris
  debris_field : DebrisField
  tick_count : ℕ
  score : ℕ
  collisions : ℕ
  deorbited : ℕ
  game_over : Bool
  events : List String
deriving DecidableEq, Repr

/-- `Simulation.__init__`: empty collections, zero counters. -/
def Simulation.start : Simulation :=
  { satellites := [], debris_list := [],
    debris_field := { width := AREA_WIDTH, height := AREA_HEIGHT, counter := 0 },
    tick_count := 0, score := 0, collisions := 0, deorbited := 0,
    game_over := false, events := [] }

/-- `Simulation.add_satellite`. -/
def Simulation.add_satellite (sim : Simulation) (s : Satellite) : Simulation :=
  { sim with satellites := sim.satellites ++ [s] }

/-- Replace the satellite at position `i` by its deactivated copy
(Python mutates the shared object in place; the index identifies it). -/
def deactivateSatAt (l : List Satellite) (i : ℕ) : List Satellite :=
  match l.get? i with
  | some s => l.set i { s with active := false }
  | none => l

/-- Replace the debris at position `i` by its deactivated copy. -/
def deactivateDebAt (l : List Debris) (i : ℕ) : List Debris :=
  match l.get? i with
  | some d => l.set i { d with active := false }
  | none => l

/-- Body of the satellite × debris loop of `_check_all_collisions` for one
pair: on collision deactivate both (at their original indices), count one
collision and log the event; otherwise log a proximity warning when close.
The checked objects come from the snapshot taken at the start of the pass —
faithful to the source because only the `active` flags (which the distance
checks never read) change during the pass. -/
def satDebrisCheck (p : ℕ × Satellite) (q : ℕ × Debris) (sim : Simulation) : Simulation :=
  if check_collision (SpaceObject.sat p.2) (SpaceObject.deb q.2) then
    { sim with
      satellites := deactivateSatAt sim.satellites p.1,
      debris_list := deactivateDebAt sim.debris_list q.1,
      collisions := sim.collisions + 1,
      events := sim.events ++
        ["COLLISION : " ++ p.2.name ++ " touché par " ++ q.2.name ++ " !"] }
  else if check_proximity_warning p.2 (SpaceObject.deb q.2) then
    { sim with events := sim.events ++ ["ALERTE : " ++ q.2.name ++ " proche de " ++ p.2.name] }
  else sim

/-- Body of the satellite-pair loop of `_check_all_collisions` for one pair
`(i, j)` with `i < j`: on collision deactivate both, count two collisions and
log one paired event. -/
def satSatCheck (p q : ℕ × Satellite) (sim : Simulation) : Simulation :=
  if check_collision (SpaceObject.sat p.2) (SpaceObject.sat q.2) then
    { sim with
      satellites := deactivateSatAt (deactivateSatAt sim.satellites p.1) q.1,
      collisions := sim.collisions + 2,
      events := sim.events ++ ["COLLISION : " ++ p.2.name ++ " et " ++ q.2.name ++ " !"] }
  else sim

/-- All ordered pairs `(l[i], l[j])` with `i < j`, in the iteration order of
the nested `for i … for j in range(i+1, …)` loops. -/
def ltPairs {α : Type} : List α → List (α × α)
  | [] => []
  | x :: xs => xs.map (fun y => (x, y)) ++ ltPairs xs

/-- First phase of `_check_all_collisions`: every snapshot satellite against
every snapshot debris, in order. -/
def satDebrisPhase (snapS : List (ℕ × Satellite)) (snapD : List (ℕ × Debris))
    (sim : Simulation) : Simulation :=
  snapS.foldl (fun acc p => snapD.foldl (fun acc2 q => satDebrisCheck p q acc2) acc) sim

/-- Second phase of `_check_all_collisions`: every unordered snapshot
satellite pair, using the same snapshot taken before the first phase. -/
def satSatPhase (snapS : List (ℕ × Satellite)) (sim : Simulation) : Simulation :=
  (ltPairs snapS).foldl (fun acc pq => satSatCheck pq.1 pq.2 acc) sim

/-- Pair each list element with its position, starting at index `i`
(the index models Python's object identity for in-place mutation). -/
def withIdx {α : Type} (i : ℕ) : List α → List (ℕ × α)
  | [] => []
  | a :: as => (i, a) :: withIdx (i + 1) as

/-- `Simulation._check_all_collisions`: snapshot the active satellites and
active debris (with their positions in the owning lists), then run the
satellite–debris phase followed by the satellite-pair phase over that same
snapshot. -/
def Simulation.checkAllCollisions (sim : Simulation) : Simulation :=
  let snapS := (withIdx 0 sim.satellites).filter (fun p => p.2.active)
  let snapD := (withIdx 0 sim.debris_list).filter (fun p => p.2.active)
  satSatPhase snapS (satDebrisPhase snapS snapD sim)

/-- `Simulation._cleanup_out_of_bounds`: keep only debris that are active and
inside the arena extended by the 50-unit margin. -/
def Simulation.cleanupOutOfBounds (sim : Simulation) : Simulation :=
  { sim with debris_list := sim.debris_list.filter (fun d =>
      d.active ∧ -50 < d.x ∧ d.x < AREA_WIDTH + 50 ∧ -50 < d.y ∧ d.y < AREA_HEIGHT + 50) }

/-- The random draws consumed by one `tick`: the `random.random()` value `r`
compared against the spawn chance, and the generator draws used if a debris
is spawned. -/
structure TickRand where
  r : ℚ
  gen : GenDraw
deriving DecidableEq, Repr

/-- Well-formedness of a tick's random draws: `r ∈ [0, 1)` as guaranteed by
`random.random()`, and generator draws within their ranges. -/
def TickRand.Wf (tr : TickRand) : Prop :=
  0 ≤ tr.r ∧ tr.r < 1 ∧ GenDraw.Wf AREA_WIDTH AREA_HEIGHT tr.gen

/-- Number of active satellites in a list. -/
def numActive (l : List Satellite) : ℕ := (l.filter (fun s => s.active)).length

/-- Step 1 of `Simulation.tick`: increment the tick counter. -/
def Simulation.incTick (sim : Simulation) : Simulation :=
  { sim with tick_count := sim.tick_count + 1 }

/-- Step 2 of `Simulation.tick`: update every satellite, then every debris. -/
def Simulation.updatePhase (T : Trig) (sim : Simulation) : Simulation :=
  { sim with
    satellites := sim.satellites.map (Satellite.update T),
    debris_list := sim.debris_list.map (Debris.update T) }

/-- Step 3 of `Simulation.tick`: with probability
`min(0.05 + tick_count * 0.0005, 0.3)` (the tick counter having already been
incremented) generate one debris and append it. -/
def Simulation.spawnPhase (tr : TickRand) (sim : Simulation) : Simulation :=
  let spawnChance : ℚ := min (1/20 + sim.tick_count * (1/2000)) (3/10)
  if tr.r < spawnChance then
    let df := sim.debris_field.generate tr.gen
    { sim with debris_list := sim.debris_list ++ [df.1], debris_field := df.2 }
  else sim

/-- Steps 6–7 of `Simulation.tick`: add the number of active satellites to
the score, and set `game_over` when that number is 0 and the tick counter
exceeds 10 (leaving it alone otherwise). -/
def Simulation.scorePhase (sim : Simulation) : Simulation :=
  let activeCount := numActive sim.satellites
  { sim with
    score := sim.score + activeCount,
    game_over := if activeCount = 0 ∧ 10 < sim.tick_count then true else sim.game_over }

/-- `Simulation.tick`: return immediately when game over; otherwise increment
the tick counter, update every satellite then every debris, possibly spawn
one debris, run the collision pass, drop out-of-bounds or inactive debris,
add the active-satellite count to the score, and raise `game_over` when no
satellite is active and the tick counter exceeds 10. -/
def Simulation.tick (T : Trig) (tr : TickRand) (sim : Simulation) : Simulation :=
  if sim.game_over then sim
  else
    Simulation.scorePhase
      (Simulation.cleanupOutOfBounds
        (Simulation.checkAllCollisions
          (Simulation.spawnPhase tr
            (Simulation.updatePhase T
              (Simulation.incTick sim)))))

/-- One recursive traversal implementing the loop of
`Simulation.deorbit_satellite`: find the first satellite whose name matches
and which is active; call `deorbit()` on it and stop, reporting the result
and the event to append.  `none` means the loop fell through. -/
def deorbitInList (n : String) : List Satellite → List Satellite × Option (Bool × String)
  | [] => ([], none)
  | s :: rest =>
    if s.name = n ∧ s.active then
      let r := s.deorbit
      if r.1 then
        (r.2 :: rest, some (true, s.name ++ " désorbité avec succès !"))
      else
        (r.2 :: rest, some (false, s.name ++ " : carburant insuffisant pour désorbiter"))
    else
      let rec' := deorbitInList n rest
      (s :: rec'.1, rec'.2)

/-- `Simulation.deorbit_satellite`: on a successful deorbit increment the
**collision** counter (the source's miswiring) and log a success event; on an
insufficient-fuel failure log a failure event; on a lookup miss do nothing.
Returns the boolean result together with the new state. -/
def Simulation.deorbit_satellite (sim : Simulation) (n : String) : Bool × Simulation :=
  match deorbitInList n sim.satellites with
  | (sats, some (true, ev)) =>
      (true, { sim with
               satellites := sats,
               collisions := sim.collisions + 1,
               events := sim.events ++ [ev] })
  | (sats, some (false, ev)) =>
      (false, { sim with satellites := sats, events := sim.events ++ [ev] })
  | (sats, none) => (false, { sim with satellites := sats })

/-- The record returned by `Simulation.get_stats`. -/
structure Stats where
  tick : ℕ
  score : ℕ
  satellites_actifs : ℕ
  collisions : ℕ
  desorbites : ℕ
  debris_en_zone : ℕ
deriving DecidableEq, Repr

/-- `Simulation.get_stats`. -/
def Simulation.get_stats (sim : Simulation) : Stats :=
  { tick := sim.tick_count, score := sim.score,
    satellites_actifs := numActive sim.satellites,
    collisions := sim.collisions, desorbites := sim.deorbited,
    debris_en_zone := sim.debris_list.length }

/-- `Simulation.pop_events`: return the queue content and the state with the
queue emptied. -/
def Simulation.pop_events (sim : Simulation) : List String × Simulation :=
  (sim.events, { sim with events := [] })

/-- The GUI's `_change_angle` handler: apply `change_angle` to every active
satellite with the selected name. -/
def Simulation.controlAngle (sim : Simulation) (n : String) (a : ℚ) : Simulation :=
  { sim with satellites := sim.satellites.map (fun s =>
      if s.name = n ∧ s.active then s.change_angle a else s) }

/-- The GUI's `_change_speed` handler: apply `change_speed` to every active
satellite with the selected name. -/
def Simulation.controlSpeed (sim : Simulation) (n : String) (v : ℚ) : Simulation :=
  { sim with satellites := sim.satellites.map (fun s =>
      if s.name = n ∧ s.active then s.change_speed v else s) }

/-- Simulation states reachable through the public interface: the empty
simulation, seeding satellites, ticking with well-formed random draws,
deorbit requests, and the two GUI control operations. -/
inductive Reachable : Simulation → Prop where
  | start : Reachable Simulation.start
  | add (sim : Simulation) (s : Satellite) : Reachable sim → Reachable (sim.add_satellite s)
  | step (sim : Simulation) (T : Trig) (tr : TickRand) :
      Reachable sim → tr.Wf → Reachable (Simulation.tick T tr sim)
  | deorb (sim : Simulation) (n : String) :
      Reachable sim → Reachable (Simulation.deorbit_satellite sim n).2
  | ctrlAngle (sim : Simulation) (n : String) (a : ℚ) :
      Reachable sim → Reachable (sim.controlAngle n a)
  | ctrlSpeed (sim : Simulation) (n : String) (v : ℚ) :
      Reachable sim → Reachable (sim.controlSpeed n v)
  | popEvents (sim : Simulation) :
      Reachable sim → Reachable sim.pop_events.2

/-- Bridge between the executable squared comparison and the source's
comparison of `distance_to` against a positive threshold. -/
lemma distSq_lt_iff (a b : CelestialObject) (t : ℚ) (ht : 0 < t) :
    (CelestialObject.distSq a b < t ^ 2) ↔ a.distance_to b < (t : ℝ) := by
  unfold CelestialObject.distance_to
  rw [Real.sqrt_lt' (by exact_mod_cast ht)]
  constructor
  · intro h
    exact_mod_cast h
  · intro h
    exact_mod_cast h

/-- Every debris danger radius is positive. -/
lemma danger_radius_pos (d : Debris) : 0 < d.danger_radius := by
  unfold Debris.danger_radius
  cases d.size <;> norm_num

/-- C1.  `distance_to(a, b) = sqrt((a.x + b.x)^2 + (a.y + b.y)^2)` — the
coordinates are summed, not subtracted — and this metric is the one every
collision and proximity check compares against its threshold: satellite–debris
collision iff it is below `20 + danger_radius`, satellite–satellite iff below
`40`, proximity warning iff below `80`. -/
theorem spec_C1_distance_metric :
    (∀ a b : CelestialObject,
      a.distance_to b =
        Real.sqrt (((a.x : ℝ) + (b.x : ℝ)) ^ 2 + ((a.y : ℝ) + (b.y : ℝ)) ^ 2)) ∧
    (∀ (s : Satellite) (d : Debris),
      (check_collision (SpaceObject.sat s) (SpaceObject.deb d) = true ↔
        s.toCelestialObject.distance_to d.toCelestialObject <
          (SATELLITE_RADIUS : ℝ) + (d.danger_radius : ℝ)) ∧
      (check_collision (SpaceObject.deb d) (SpaceObject.sat s) = true ↔
        d.toCelestialObject.distance_to s.toCelestialObject <
          (SATELLITE_RADIUS : ℝ) + (d.danger_radius : ℝ))) ∧
    (∀ s1 s2 : Satellite,
      check_collision (SpaceObject.sat s1) (SpaceObject.sat s2) = true ↔
        s1.toCelestialObject.distance_to s2.toCelestialObject < (40 : ℝ)) ∧
    (∀ (s : Satellite) (o : SpaceObject),
      check_proximity_warning s o = true ↔
        s.toCelestialObject.distance_to o.obj < (80 : ℝ)) := by
  refine ⟨?_, ?_, ?_, ?_⟩
  · intro a b
    unfold CelestialObject.distance_to CelestialObject.distSq
    congr 1
    push_cast
    ring
  · intro s d
    have hpos : (0 : ℚ) < SATELLITE_RADIUS + d.danger_radius := by
      have := danger_radius_pos d
      unfold SATELLITE_RADIUS
      linarith
    constructor
    · rw [check_collision, decide_eq_true_eq,
        distSq_lt_iff _ _ _ hpos]
      push_cast
      exact Iff.rfl
    · rw [check_collision, decide_eq_true_eq,
        distSq_lt_iff _ _ _ hpos]
      push_cast
      exact Iff.rfl
  · intro s1 s2
    rw [check_collision, decide_eq_true_eq,
      distSq_lt_iff _ _ (SATELLITE_RADIUS * 2) (by unfold SATELLITE_RADIUS; norm_num)]
    unfold SATELLITE_RADIUS SpaceObject.obj
    norm_num
  · intro s o
    rw [check_proximity_warning, decide_eq_true_eq,
      distSq_lt_iff _ _ 80 (by norm_num)]
    norm_num

/-- C10.  Two debris never collide: `check_collision` returns `false` on
every debris–debris pair, so a pair reported as colliding is always a
satellite–debris or a satellite–satellite pair. -/
theorem spec_C10_debris_never_collide :
    (∀ d1 d2 : Debris,
      check_collision (SpaceObject.deb d1) (SpaceObject.deb d2) = false) ∧
    (∀ o1 o2 : SpaceObject, check_collision o1 o2 = true →
      (∃ s d, (o1 = SpaceObject.sat s ∧ o2 = SpaceObject.deb d) ∨
              (o1 = SpaceObject.deb d ∧ o2 = SpaceObject.sat s)) ∨
      (∃ s1 s2, o1 = SpaceObject.sat s1 ∧ o2 = SpaceObject.sat s2)) := by
  constructor
  · intro d1 d2
    rfl
  · intro o1 o2 h
    cases o1 with
    | sat s1 =>
      cases o2 with
      | sat s2 => exact Or.inr ⟨s1, s2, rfl, rfl⟩
      | deb d2 => exact Or.inl ⟨s1, d2, Or.inl ⟨rfl, rfl⟩⟩
    | deb d1 =>
      cases o2 with
      | sat s2 => exact Or.inl ⟨s2, d1, Or.inr ⟨rfl, rfl⟩⟩
      | deb d2 => simp [check_collision] at h

/-- Witness for C10: a concrete colliding satellite–debris pair at the origin
is classified as a satellite–debris pair. -/
theorem spec_C10_witness :
    (∃ s d, (SpaceObject.sat (Satellite.make "S" 0 0 1 0 100) = SpaceObject.sat s ∧
             SpaceObject.deb { CelestialObject.make "D" 0 0 1 0 with size := DebrisSize.small } =
               SpaceObject.deb d) ∨
            (SpaceObject.sat (Satellite.make "S" 0 0 1 0 100) = SpaceObject.deb d ∧
             SpaceObject.deb { CelestialObject.make "D" 0 0 1 0 with size := DebrisSize.small } =
               SpaceObject.sat s)) ∨
    (∃ s1 s2, SpaceObject.sat (Satellite.make "S" 0 0 1 0 100) = SpaceObject.sat s1 ∧
              SpaceObject.deb { CelestialObject.make "D" 0 0 1 0 with size := DebrisSize.small } =
                SpaceObject.sat s2) :=
  spec_C10_debris_never_collide.2 _ _ (by
    norm_num [check_collision, CelestialObject.distSq, SpaceObject.obj,
      Satellite.make, CelestialObject.make, Debris.danger_radius, SATELLITE_RADIUS])

/-- C3.  `deorbit()` succeeds iff the pre-call fuel is at least 5.0; on
success it sets `active := false`, `status := deorbited`, lowers the fuel by
exactly 5.0 and returns `true`; on failure it returns `false` and leaves the
whole record (fuel, status, active flag, position, speed, angle) unchanged. -/
theorem spec_C3_deorbit :
    ∀ s : Satellite,
      ((s.deorbit).1 = true ↔ 5 ≤ s.fuel) ∧
      (5 ≤ s.fuel →
        (s.deorbit).2 =
          { s with status := Status.deorbited, fuel := s.fuel - 5, active := false }) ∧
      (s.fuel < 5 → (s.deorbit).1 = false ∧ (s.deorbit).2 = s) := by
  intro s
  unfold Satellite.deorbit
  by_cases h : 5 ≤ s.fuel
  · refine ⟨by simp [h], fun _ => by simp [h], fun hlt => absurd h (not_le.mpr hlt)⟩
  · refine ⟨by simp [h], fun h5 => absurd h5 h, fun _ => by simp [h]⟩

/-- Witness for C3 at concrete satellites with fuel 10 (success) and fuel 3
(failure). -/
theorem spec_C3_witness :
    ((Satellite.make "X" 1 2 3 4 10).deorbit).2.fuel = 5 ∧
    ((Satellite.make "X" 1 2 3 4 10).deorbit).2.status = Status.deorbited ∧
    ((Satellite.make "X" 1 2 3 4 10).deorbit).2.active = false ∧
    ((Satellite.make "Y" 1 2 3 4 3).deorbit).1 = false ∧
    ((Satellite.make "Y" 1 2 3 4 3).deorbit).2 = Satellite.make "Y" 1 2 3 4 3 := by
  have h10 : (5 : ℚ) ≤ (Satellite.make "X" 1 2 3 4 10).fuel := by
    norm_num [Satellite.make, CelestialObject.make]
  have h := (spec_C3_deorbit (Satellite.make "X" 1 2 3 4 10)).2.1 h10
  have h3 : (Satellite.make "Y" 1 2 3 4 3).fuel < 5 := by
    norm_num [Satellite.make, CelestialObject.make]
  have h' := (spec_C3_deorbit (Satellite.make "Y" 1 2 3 4 3)).2.2 h3
  refine ⟨?_, ?_, ?_, h'.1, h'.2⟩ <;>
    (rw [h]; try norm_num [Satellite.make, CelestialObject.make])

/-- The status `_update_status` assigns for a given (pre-clamp) fuel level. -/
def statusOfFuel (f : ℚ) : Status :=
  if f ≤ 0 then Status.critical else if f < 20 then Status.warning else Status.nominal

/-- A fixed trig oracle used to instantiate witnesses. -/
def T0 : Trig := { cos := fun _ => 0, sin := fun _ => 0 }

/-- `deorbit` on a satellite with fuel ≥ 5. -/
lemma deorbit_succ (s : Satellite) (h : 5 ≤ s.fuel) :
    s.deorbit = (true, { s with status := Status.deorbited, fuel := s.fuel - 5, active := false }) := by
  unfold Satellite.deorbit
  simp [h]

/-- `deorbit` on a satellite with fuel < 5. -/
lemma deorbit_fail (s : Satellite) (h : ¬ 5 ≤ s.fuel) : s.deorbit = (false, s) := by
  unfold Satellite.deorbit
  simp [h]

/-- `_update_status` never changes the angle. -/
lemma updateStatus_angle (s : Satellite) : s.updateStatus.angle = s.angle := by
  unfold Satellite.updateStatus
  split_ifs <;> rfl

/-- `_update_status` leaves the fuel alone except for the clamp at 0. -/
lemma updateStatus_fuel (s : Satellite) :
    s.updateStatus.fuel = if s.fuel ≤ 0 then 0 else s.fuel := by
  unfold Satellite.updateStatus
  split_ifs <;> rfl

/-- `_update_status` sets exactly the status `statusOfFuel` describes. -/
lemma updateStatus_status (s : Satellite) : s.updateStatus.status = statusOfFuel s.fuel := by
  unfold Satellite.updateStatus statusOfFuel
  split_ifs <;> rfl


/-- `_update_status` never changes the speed. -/
lemma updateStatus_speed (s : Satellite) : s.updateStatus.speed = s.speed := by
  unfold Satellite.updateStatus
  split_ifs <;> rfl

/-- `change_speed` with positive fuel: observable effect on speed, fuel and
status. -/
lemma change_speed_pos (s : Satellite) (v : ℚ) (h : 0 < s.fuel) :
    (s.change_speed v).speed = max (1/2) (min v 5) ∧
    (s.change_speed v).fuel = max 0 (s.fuel - 3/2) ∧
    (s.change_speed v).status = statusOfFuel (s.fuel - 3/2) ∧
    0 ≤ (s.change_speed v).fuel := by
  have hng : ¬ s.fuel ≤ 0 := not_le.mpr h
  unfold Satellite.change_speed
  simp only [hng, if_false]
  refine ⟨?_, ?_, ?_, ?_⟩
  · rw [updateStatus_speed]
  · rw [updateStatus_fuel]
    dsimp only
    split_ifs with hle
    · exact (max_eq_left hle).symm
    · exact (max_eq_right (by linarith)).symm
  · rw [updateStatus_status]
  · rw [updateStatus_fuel]
    dsimp only
    split_ifs with hle
    · exact le_refl 0
    · linarith

/-- C8.  `change_speed(v)` is a complete no-op when the pre-call fuel is ≤ 0;
otherwise it clamps the speed into `[0.5, 5]`, subtracts 1.5 fuel (clamping
at 0 inside the status recomputation) and recomputes the status, so negative
fuel is never observable afterwards.  In particular a satellite with fuel 1.0
calling `change_speed(3.0)` ends with speed 3.0, fuel 0 and status
`critical`. -/
theorem spec_C8_change_speed :
    (∀ (s : Satellite) (v : ℚ),
      (s.fuel ≤ 0 → s.change_speed v = s) ∧
      (0 < s.fuel →
        (s.change_speed v).speed = max (1/2) (min v 5) ∧
        (s.change_speed v).fuel = max 0 (s.fuel - 3/2) ∧
        (s.change_speed v).status = statusOfFuel (s.fuel - 3/2) ∧
        0 ≤ (s.change_speed v).fuel)) ∧
    ((Satellite.make "B" 0 0 1 0 1).change_speed 3).speed = 3 ∧
    ((Satellite.make "B" 0 0 1 0 1).change_speed 3).fuel = 0 ∧
    ((Satellite.make "B" 0 0 1 0 1).change_speed 3).status = Status.critical := by
  have hpos : (0 : ℚ) < (Satellite.make "B" 0 0 1 0 1).fuel := by
    norm_num [Satellite.make, CelestialObject.make]
  have hB := change_speed_pos (Satellite.make "B" 0 0 1 0 1) 3 hpos
  refine ⟨?_, ?_, ?_, ?_⟩
  · intro s v
    refine ⟨?_, fun h => change_speed_pos s v h⟩
    intro h
    unfold Satellite.change_speed
    simp [h]
  · rw [hB.1]
    norm_num
  · rw [hB.2.1]
    rw [max_eq_left (by norm_num [Satellite.make, CelestialObject.make])]
  · rw [hB.2.2.1]
    norm_num [Satellite.make, CelestialObject.make, statusOfFuel]

/-- Witness for C8: fuel-exhausted no-op at fuel 0, and clamping of the
requested speed 7 to 5 at fuel 30. -/
theorem spec_C8_witness :
    (Satellite.make "W" 0 0 1 0 0).change_speed 4 = Satellite.make "W" 0 0 1 0 0 ∧
    ((Satellite.make "W" 0 0 1 0 30).change_speed 7).speed = 5 := by
  constructor
  · exact (spec_C8_change_speed.1 (Satellite.make "W" 0 0 1 0 0) 4).1
      (by norm_num [Satellite.make, CelestialObject.make])
  · have h := (spec_C8_change_speed.1 (Satellite.make "W" 0 0 1 0 30) 7).2
      (by norm_num [Satellite.make, CelestialObject.make])
    rw [h.1]
    norm_num

/-- The four satellite operations of claim C2 (the tick-driven `update` and
the three control operations). -/
inductive SatOp where
  | update (T : Trig)
  | changeAngle (a : ℚ)
  | changeSpeed (v : ℚ)
  | deorbit

/-- Apply one operation to a satellite (`deorbit`'s boolean is dropped). -/
def applyOp : SatOp → Satellite → Satellite
  | SatOp.update T, s => s.update T
  | SatOp.changeAngle a, s => s.change_angle a
  | SatOp.changeSpeed v, s => s.change_speed v
  | SatOp.deorbit, s => s.deorbit.2

/-- Apply a sequence of operations left to right. -/
def applyOps (ops : List SatOp) (s : Satellite) : Satellite :=
  ops.foldl (fun t op => applyOp op t) s

/-- The fuel/status invariant of claim C2: fuel is never negative, and while
the status is not `deorbited` it is the one the fuel thresholds dictate. -/
def FuelStatusInv (s : Satellite) : Prop :=
  0 ≤ s.fuel ∧
  (s.status ≠ Status.deorbited →
    (20 ≤ s.fuel → s.status = Status.nominal) ∧
    (0 < s.fuel ∧ s.fuel < 20 → s.status = Status.warning) ∧
    (s.fuel = 0 → s.status = Status.critical))

/-- `_update_status` always establishes the fuel/status invariant, whatever
the input state. -/
lemma fuelStatusInv_updateStatus (s : Satellite) : FuelStatusInv s.updateStatus := by
  unfold FuelStatusInv
  rw [updateStatus_fuel, updateStatus_status]
  unfold statusOfFuel
  split_ifs with h1 h2
  · exact ⟨le_refl 0, fun _ => ⟨fun h => by linarith, fun h => by linarith [h.1], fun _ => rfl⟩⟩
  · refine ⟨by linarith, fun _ => ⟨fun h => by linarith, fun _ => rfl, fun h => by simp [h] at h1⟩⟩
  · refine ⟨by linarith, fun _ => ⟨fun _ => rfl, fun h => by linarith [h.2], fun h => by simp [h] at h1⟩⟩

/-- The satellite-level `update` preserves fuel and status when the satellite
is inactive, and otherwise ends in `_update_status`; either way the invariant
is preserved. -/
lemma fuelStatusInv_applyOp (op : SatOp) (s : Satellite) (h : FuelStatusInv s) :
    FuelStatusInv (applyOp op s) := by
  cases op with
  | update T =>
    show FuelStatusInv (s.update T)
    unfold Satellite.update
    dsimp only
    split_ifs with ha
    · exact fuelStatusInv_updateStatus _
    · exact h
  | changeAngle a =>
    show FuelStatusInv (s.change_angle a)
    unfold Satellite.change_angle
    split_ifs with ha
    · exact h
    · exact fuelStatusInv_updateStatus _
  | changeSpeed v =>
    show FuelStatusInv (s.change_speed v)
    unfold Satellite.change_speed
    split_ifs with ha
    · exact h
    · exact fuelStatusInv_updateStatus _
  | deorbit =>
    show FuelStatusInv s.deorbit.2
    unfold Satellite.deorbit
    split_ifs with ha
    · exact ⟨by dsimp only; linarith, fun hne => absurd rfl hne⟩
    · exact h

/-- Fuel non-negativity alone is preserved by every operation. -/
lemma fuel_nonneg_applyOp (op : SatOp) (s : Satellite) (h : 0 ≤ s.fuel) :
    0 ≤ (applyOp op s).fuel := by
  cases op with
  | update T =>
    show 0 ≤ (s.update T).fuel
    unfold Satellite.update
    dsimp only
    split_ifs with ha
    · exact (fuelStatusInv_updateStatus _).1
    · exact h
  | changeAngle a =>
    show 0 ≤ (s.change_angle a).fuel
    unfold Satellite.change_angle
    split_ifs with ha
    · exact h
    · exact (fuelStatusInv_updateStatus _).1
  | changeSpeed v =>
    show 0 ≤ (s.change_speed v).fuel
    unfold Satellite.change_speed
    split_ifs with ha
    · exact h
    · exact (fuelStatusInv_updateStatus _).1
  | deorbit =>
    show 0 ≤ s.deorbit.2.fuel
    unfold Satellite.deorbit
    split_ifs with ha
    · dsimp only
      linarith
    · exact h

/-- Any predicate preserved by every single operation is preserved by every
operation sequence. -/
lemma applyOps_preserve (P : Satellite → Prop)
    (hstep : ∀ op s, P s → P (applyOp op s)) :
    ∀ (ops : List SatOp) (s : Satellite), P s → P (applyOps ops s) := by
  intro ops
  induction ops with
  | nil => intro s h; exact h
  | cons op rest ih =>
    intro s h
    exact ih (applyOp op s) (hstep op s h)

/-- A freshly constructed satellite with fuel ≥ 20 satisfies the invariant
(the constructor's unconditional `nominal` matches the thresholds there). -/
lemma fuelStatusInv_make (nm : String) (x y sp an f : ℚ) (hf : 20 ≤ f) :
    FuelStatusInv (Satellite.make nm x y sp an f) := by
  refine ⟨by simpa [Satellite.make, CelestialObject.make] using by linarith, fun _ => ⟨fun _ => rfl, ?_, ?_⟩⟩
  · intro h
    have : (Satellite.make nm x y sp an f).fuel = f := rfl
    rw [this] at h
    linarith [h.2]
  · intro h
    have : (Satellite.make nm x y sp an f).fuel = f := rfl
    rw [this] at h
    linarith

/-- Counterexample to C2 as stated: a satellite constructed with fuel 5
(which is ≥ 0) starts with status `nominal` — the constructor never runs the
status recomputation — so with the empty operation sequence the status is not
the `warning` the thresholds dictate. -/
theorem spec_C2_counterexample :
    (0 : ℚ) ≤ 5 ∧
    applyOps [] (Satellite.make "S" 0 0 1 0 5) = Satellite.make "S" 0 0 1 0 5 ∧
    (Satellite.make "S" 0 0 1 0 5).fuel = 5 ∧
    (Satellite.make "S" 0 0 1 0 5).status = Status.nominal ∧
    ¬ FuelStatusInv (applyOps [] (Satellite.make "S" 0 0 1 0 5)) := by
  refine ⟨by norm_num, rfl, rfl, rfl, ?_⟩
  intro h
  have hne : (applyOps [] (Satellite.make "S" 0 0 1 0 5)).status ≠ Status.deorbited := by
    show Status.nominal ≠ Status.deorbited
    simp
  have hw := (h.2 hne).2.1 (by norm_num [applyOps, List.foldl, Satellite.make, CelestialObject.make])
  exact absurd hw (by simp [applyOps, List.foldl, Satellite.make, CelestialObject.make])

/-- C2 (amended).  After any sequence of `update`, `change_angle`,
`change_speed`, `deorbit`: fuel stays ≥ 0 whenever the construction fuel was
≥ 0; and when the construction fuel was ≥ 20 (so that the constructor's
unconditional `nominal` already matches the thresholds) the full invariant
holds: fuel ≥ 0 and, unless the status is `deorbited`, the status is exactly
the one the fuel thresholds dictate. -/
theorem spec_C2_fuel_status :
    ∀ (nm : String) (x y sp an f : ℚ) (ops : List SatOp),
      (0 ≤ f → 0 ≤ (applyOps ops (Satellite.make nm x y sp an f)).fuel) ∧
      (20 ≤ f → FuelStatusInv (applyOps ops (Satellite.make nm x y sp an f))) := by
  intro nm x y sp an f ops
  constructor
  · intro hf
    exact applyOps_preserve (fun s => 0 ≤ s.fuel) fuel_nonneg_applyOp ops _ hf
  · intro hf
    exact applyOps_preserve FuelStatusInv fuelStatusInv_applyOp ops _
      (fuelStatusInv_make nm x y sp an f hf)

/-- Witness for C2 (amended) on a concrete run: construction fuel 30, then a
speed change, a heading change and a passive update. -/
theorem spec_C2_witness :
    0 ≤ (applyOps [SatOp.changeSpeed 9, SatOp.changeAngle 50, SatOp.update T0]
          (Satellite.make "S" 0 0 1 0 30)).fuel ∧
    FuelStatusInv (applyOps [SatOp.changeSpeed 9, SatOp.changeAngle 50, SatOp.update T0]
          (Satellite.make "S" 0 0 1 0 30)) :=
  ⟨(spec_C2_fuel_status "S" 0 0 1 0 30 _).1 (by norm_num),
   (spec_C2_fuel_status "S" 0 0 1 0 30 _).2 (by norm_num)⟩

/-- `Satellite.update` is a complete no-op on an inactive satellite. -/
lemma update_inactive (T : Trig) (s : Satellite) (h : s.active = false) :
    s.update T = s := by
  unfold Satellite.update CelestialObject.update
  have hb : s.toCelestialObject.active = false := h
  simp [hb]

/-- Any sequence of updates is a no-op on an inactive satellite. -/
lemma foldl_update_inactive (s : Satellite) (h : s.active = false) :
    ∀ Ts : List Trig, Ts.foldl (fun t T => t.update T) s = s := by
  intro Ts
  induction Ts with
  | nil => rfl
  | cons T rest ih =>
    show rest.foldl _ (s.update T) = s
    rw [update_inactive T s h]
    exact ih

/-- Counterexample to C4 as stated: deorbit a satellite with fuel 10 (status
becomes `deorbited`, 5 fuel left), then call `change_angle(0)` — the guard
only checks fuel, 5 > 0, so the status is recomputed to `warning`. -/
theorem spec_C4_counterexample :
    ((Satellite.make "S" 0 0 1 0 10).deorbit).2.status = Status.deorbited ∧
    (((Satellite.make "S" 0 0 1 0 10).deorbit).2.change_angle 0).status = Status.warning ∧
    Status.warning ≠ Status.deorbited := by
  have h : (Satellite.make "S" 0 0 1 0 10).deorbit =
      (true, { Satellite.make "S" 0 0 1 0 10 with
               status := Status.deorbited,
               fuel := (Satellite.make "S" 0 0 1 0 10).fuel - 5,
               active := false }) :=
    deorbit_succ _ (by norm_num [Satellite.make, CelestialObject.make])
  rw [h]
  refine ⟨rfl, ?_, by simp⟩
  unfold Satellite.change_angle
  rw [if_neg (by norm_num [Satellite.make, CelestialObject.make])]
  rw [updateStatus_status]
  norm_num [Satellite.make, CelestialObject.make, statusOfFuel]

/-- C4 (amended).  After a successful `deorbit()` the satellite is inactive,
so any sequence of `update()` calls is a complete no-op and the status stays
`deorbited` — but this stickiness holds only for `update`: `change_angle` or
`change_speed` with the remaining fuel > 0 recomputes the status and
overwrites `deorbited` (see the counterexample). -/
theorem spec_C4_deorbited_sticky_update :
    ∀ s : Satellite, s.deorbit.1 = true →
      ∀ Ts : List Trig,
        Ts.foldl (fun t T => t.update T) s.deorbit.2 = s.deorbit.2 ∧
        (Ts.foldl (fun t T => t.update T) s.deorbit.2).status = Status.deorbited := by
  intro s hs Ts
  have h5 : 5 ≤ s.fuel := by
    by_contra hlt
    rw [deorbit_fail s hlt] at hs
    exact Bool.false_ne_true hs
  have hact : s.deorbit.2.active = false := by
    rw [deorbit_succ s h5]
  have hst : s.deorbit.2.status = Status.deorbited := by
    rw [deorbit_succ s h5]
  refine ⟨foldl_update_inactive _ hact Ts, ?_⟩
  rw [foldl_update_inactive _ hact Ts]
  exact hst

/-- Witness for C4 (amended): a concrete deorbited satellite ticked twice
keeps status `deorbited`. -/
theorem spec_C4_witness :
    [T0, T0].foldl (fun t T => t.update T) ((Satellite.make "S" 0 0 1 0 10).deorbit).2 =
      ((Satellite.make "S" 0 0 1 0 10).deorbit).2 ∧
    ([T0, T0].foldl (fun t T => t.update T) ((Satellite.make "S" 0 0 1 0 10).deorbit).2).status =
      Status.deorbited :=
  spec_C4_deorbited_sticky_update (Satellite.make "S" 0 0 1 0 10)
    (by rw [deorbit_succ _ (by norm_num [Satellite.make, CelestialObject.make])]) [T0, T0]

/-- Python float `%` keeps the result in `[0, 360)` for the divisor 360. -/
lemma qmod_bounds (a : ℚ) : 0 ≤ qmod a 360 ∧ qmod a 360 < 360 := by
  unfold qmod
  have h3 : (360 : ℚ) * (a / 360) = a := by field_simp
  constructor
  · have hf : ((⌊a / 360⌋ : ℚ)) ≤ a / 360 := Int.floor_le _
    have h2 : (360 : ℚ) * (⌊a / 360⌋ : ℚ) ≤ 360 * (a / 360) :=
      mul_le_mul_of_nonneg_left hf (by norm_num)
    linarith
  · have hf : a / 360 < (⌊a / 360⌋ : ℚ) + 1 := Int.lt_floor_add_one _
    have h2 : (360 : ℚ) * (a / 360) < 360 * ((⌊a / 360⌋ : ℚ) + 1) :=
      mul_lt_mul_of_pos_left hf (by norm_num)
    linarith

/-- The debris draw exhibiting the C5 violation: spawn on the left edge at
its top corner with the heading drawn at the extreme `-45` of the edge's
`uniform(-45, 45)` range. -/
def g5 : GenDraw :=
  { side := Side.left, pos := 0, angle := -45, size := DebrisSize.small,
    speed := 1, nameIdx := 0 }

/-- Counterexample to C5 as stated: `DebrisField.generate` (with draws inside
the ranges the source's `random.uniform` calls produce) returns a debris with
heading angle `-45`, outside `[0, 360)` — no constructor normalises the
angle. -/
theorem spec_C5_counterexample :
    GenDraw.Wf AREA_WIDTH AREA_HEIGHT g5 ∧
    (Simulation.start.debris_field.generate g5).1.angle = -45 ∧
    ¬ (0 ≤ (Simulation.start.debris_field.generate g5).1.angle) := by
  refine ⟨?_, rfl, by norm_num [DebrisField.generate, Simulation.start, g5]⟩
  unfold GenDraw.Wf g5 Side.posHi Side.angleLo Side.angleHi AREA_WIDTH AREA_HEIGHT
  norm_num

/-- C5 (amended).  The angle lies in `[0, 360)` after every `change_angle`
with fuel > 0 (the only place the source normalises with `% 360`), and the
motion update never alters the angle; but entity constructors store the given
angle unnormalised and debris generated on the bottom or left edge can carry
a negative heading (see the counterexample). -/
theorem spec_C5_angle_normalization :
    (∀ (s : Satellite) (a : ℚ), 0 < s.fuel →
      0 ≤ (s.change_angle a).angle ∧ (s.change_angle a).angle < 360) ∧
    (∀ (T : Trig) (o : CelestialObject), (o.update T).angle = o.angle) := by
  constructor
  · intro s a h
    unfold Satellite.change_angle
    rw [if_neg (not_le.mpr h)]
    rw [updateStatus_angle]
    exact qmod_bounds a
  · intro T o
    unfold CelestialObject.update
    split_ifs <;> rfl

/-- Witness for C5 (amended): `change_angle(725)` on a full-fuel satellite
lands in `[0, 360)` (at 5 degrees). -/
theorem spec_C5_witness :
    0 ≤ ((Satellite.make "S" 0 0 1 0 100).change_angle 725).angle ∧
    ((Satellite.make "S" 0 0 1 0 100).change_angle 725).angle < 360 :=
  spec_C5_angle_normalization.1 (Satellite.make "S" 0 0 1 0 100) 725
    (by norm_num [Satellite.make, CelestialObject.make])

/-- A predicate preserved by each fold step is preserved by the whole fold. -/
lemma foldl_pres {α β : Type} (f : β → α → β) (P : β → Prop)
    (h : ∀ b a, P b → P (f b a)) :
    ∀ (l : List α) (b : β), P b → P (l.foldl f b) := by
  intro l
  induction l with
  | nil => intro b hb; exact hb
  | cons a rest ih =>
    intro b hb
    exact ih (f b a) (h b a hb)

/-- The collision pass never touches the tick counter, the game-over flag,
the score, the deorbit counter or the debris-field generator state. -/
lemma checkAllCollisions_meta (sim : Simulation) :
    (sim.checkAllCollisions).tick_count = sim.tick_count ∧
    (sim.checkAllCollisions).game_over = sim.game_over ∧
    (sim.checkAllCollisions).score = sim.score ∧
    (sim.checkAllCollisions).deorbited = sim.deorbited ∧
    (sim.checkAllCollisions).debris_field = sim.debris_field := by
  unfold Simulation.checkAllCollisions satSatPhase satDebrisPhase
  set P : Simulation → Prop := fun t =>
    t.tick_count = sim.tick_count ∧ t.game_over = sim.game_over ∧
    t.score = sim.score ∧ t.deorbited = sim.deorbited ∧
    t.debris_field = sim.debris_field with hP
  have hsd : ∀ (b : Simulation) (p : ℕ × Satellite) (q : ℕ × Debris),
      P b → P (satDebrisCheck p q b) := by
    intro b p q hb
    unfold satDebrisCheck
    split_ifs <;> exact hb
  have hss : ∀ (b : Simulation) (pq : (ℕ × Satellite) × (ℕ × Satellite)),
      P b → P (satSatCheck pq.1 pq.2 b) := by
    intro b pq hb
    unfold satSatCheck
    split_ifs <;> exact hb
  apply foldl_pres _ P hss
  apply foldl_pres _ P (fun b p hb => foldl_pres _ P (fun b2 q hb2 => hsd b2 p q hb2) _ b hb)
  exact ⟨rfl, rfl, rfl, rfl, rfl⟩

/-- The spawn phase never touches the satellites, the counters or the flags. -/
lemma spawnPhase_meta (tr : TickRand) (sim : Simulation) :
    (sim.spawnPhase tr).satellites = sim.satellites ∧
    (sim.spawnPhase tr).tick_count = sim.tick_count ∧
    (sim.spawnPhase tr).game_over = sim.game_over ∧
    (sim.spawnPhase tr).score = sim.score ∧
    (sim.spawnPhase tr).deorbited = sim.deorbited := by
  simp only [Simulation.spawnPhase]
  split_ifs <;> exact ⟨rfl, rfl, rfl, rfl, rfl⟩

/-- Fields of the state the score/game-over phase reads, expressed on the
state reached after cleanup, given `game_over` was false at tick entry. -/
lemma tick_not_over (T : Trig) (tr : TickRand) (sim : Simulation)
    (h : sim.game_over = false) :
    ∃ mid : Simulation,
      Simulation.tick T tr sim = mid.scorePhase ∧
      mid.game_over = false ∧
      mid.tick_count = sim.tick_count + 1 ∧
      mid.score = sim.score ∧
      mid.deorbited = sim.deorbited := by
  refine ⟨Simulation.cleanupOutOfBounds
      (Simulation.checkAllCollisions
        (Simulation.spawnPhase tr (Simulation.updatePhase T (Simulation.incTick sim)))), ?_, ?_, ?_, ?_, ?_⟩
  · unfold Simulation.tick
    rw [if_neg (by rw [h]; exact Bool.false_ne_true)]
  · show (Simulation.checkAllCollisions _).game_over = false
    rw [(checkAllCollisions_meta _).2.1, (spawnPhase_meta _ _).2.2.1]
    exact h
  · show (Simulation.checkAllCollisions _).tick_count = sim.tick_count + 1
    rw [(checkAllCollisions_meta _).1, (spawnPhase_meta _ _).2.1]
    rfl
  · show (Simulation.checkAllCollisions _).score = sim.score
    rw [(checkAllCollisions_meta _).2.2.1, (spawnPhase_meta _ _).2.2.2.1]
    rfl
  · show (Simulation.checkAllCollisions _).deorbited = sim.deorbited
    rw [(checkAllCollisions_meta _).2.2.2.1, (spawnPhase_meta _ _).2.2.2.2]
    rfl

/-- C6.  `tick()` on a game-over state is a complete no-op (the state is
returned unchanged, the tick counter included); from a non-game-over state,
the tick ends with `game_over = true` exactly when the count of active
satellites at the end of the tick is 0 and the (incremented) tick counter
exceeds 10 — so the flag can never be raised during the first ten ticks, is
raised at the first tick satisfying the condition, and is permanent. -/
theorem spec_C6_game_over :
    ∀ (T : Trig) (tr : TickRand) (sim : Simulation),
      (sim.game_over = true → Simulation.tick T tr sim = sim) ∧
      (sim.game_over = false →
        ((Simulation.tick T tr sim).game_over = true ↔
          numActive (Simulation.tick T tr sim).satellites = 0 ∧
          10 < (Simulation.tick T tr sim).tick_count)) := by
  intro T tr sim
  constructor
  · intro h
    unfold Simulation.tick
    rw [if_pos h]
  · intro h
    obtain ⟨mid, heq, hgo, _, _, _⟩ := tick_not_over T tr sim h
    rw [heq]
    show (mid.scorePhase).game_over = true ↔
      numActive (mid.scorePhase).satellites = 0 ∧ 10 < (mid.scorePhase).tick_count
    unfold Simulation.scorePhase
    dsimp only
    split_ifs with hc
    · simpa using hc
    · rw [hgo]
      simpa using hc

/-- Witness for C6: the no-op branch on a game-over state, and the raised /
not-raised equivalence on the empty starting simulation (whose first tick has
no active satellite but tick counter 1 ≤ 10, so the flag stays down). -/
theorem spec_C6_witness :
    Simulation.tick T0 { r := 1, gen := g5 } { Simulation.start with game_over := true } =
      { Simulation.start with game_over := true } ∧
    ((Simulation.tick T0 { r := 1, gen := g5 } Simulation.start).game_over = true ↔
      numActive (Simulation.tick T0 { r := 1, gen := g5 } Simulation.start).satellites = 0 ∧
      10 < (Simulation.tick T0 { r := 1, gen := g5 } Simulation.start).tick_count) :=
  ⟨(spec_C6_game_over T0 { r := 1, gen := g5 } { Simulation.start with game_over := true }).1 rfl,
   (spec_C6_game_over T0 { r := 1, gen := g5 } Simulation.start).2 rfl⟩

/-- `tick` never touches the deorbit counter. -/
lemma tick_deorbited (T : Trig) (tr : TickRand) (sim : Simulation) :
    (Simulation.tick T tr sim).deorbited = sim.deorbited := by
  unfold Simulation.tick
  split_ifs with h
  · rfl
  · show (Simulation.scorePhase _).deorbited = _
    have h1 : ∀ t : Simulation, t.scorePhase.deorbited = t.deorbited := fun t => rfl
    have h2 : ∀ t : Simulation, t.cleanupOutOfBounds.deorbited = t.deorbited := fun t => rfl
    rw [h1, h2, (checkAllCollisions_meta _).2.2.2.1, (spawnPhase_meta _ _).2.2.2.2]
    rfl

/-- `deorbit_satellite` never touches the deorbit counter either. -/
lemma deorbit_satellite_deorbited (sim : Simulation) (n : String) :
    (sim.deorbit_satellite n).2.deorbited = sim.deorbited := by
  unfold Simulation.deorbit_satellite
  rcases h : deorbitInList n sim.satellites with ⟨sats, r⟩
  cases r with
  | none => rfl
  | some p =>
    rcases p with ⟨b, ev⟩
    cases b <;> rfl

/-- A successful `deorbit_satellite` bumps the collision counter by one. -/
lemma deorbit_satellite_success (sim : Simulation) (n : String)
    (h : (sim.deorbit_satellite n).1 = true) :
    (sim.deorbit_satellite n).2.collisions = sim.collisions + 1 := by
  unfold Simulation.deorbit_satellite at h ⊢
  rcases he : deorbitInList n sim.satellites with ⟨sats, r⟩
  rw [he] at h
  cases r with
  | none => simp at h
  | some p =>
    rcases p with ⟨b, ev⟩
    cases b
    · simp at h
    · rfl

/-- C9.  The deorbit counter reported by `get_stats` always reads its initial
value 0 on every reachable state — no operation increments it — while a
successful `deorbit_satellite` increments the **collision** counter by 1. -/
theorem spec_C9_deorbit_counter :
    (∀ sim : Simulation, Reachable sim →
      sim.deorbited = 0 ∧ (sim.get_stats).desorbites = 0) ∧
    (∀ (T : Trig) (tr : TickRand) (sim : Simulation),
      (Simulation.tick T tr sim).deorbited = sim.deorbited) ∧
    (∀ (sim : Simulation) (n : String),
      (sim.deorbit_satellite n).2.deorbited = sim.deorbited) ∧
    (∀ (sim : Simulation) (n : String), (sim.deorbit_satellite n).1 = true →
      (sim.deorbit_satellite n).2.collisions = sim.collisions + 1) := by
  have hreach : ∀ sim, Reachable sim → sim.deorbited = 0 := by
    intro sim h
    induction h with
    | start => rfl
    | add sim s _ ih => exact ih
    | step sim T tr _ _ ih => rw [tick_deorbited]; exact ih
    | deorb sim n _ ih => rw [deorbit_satellite_deorbited]; exact ih
    | ctrlAngle sim n a _ ih => exact ih
    | ctrlSpeed sim n v _ ih => exact ih
    | popEvents sim _ ih => exact ih
  exact ⟨fun sim h => ⟨hreach sim h, hreach sim h⟩,
    fun T tr sim => tick_deorbited T tr sim,
    fun sim n => deorbit_satellite_deorbited sim n,
    fun sim n h => deorbit_satellite_success sim n h⟩

/-- Witness for C9: seeding one full-fuel satellite and deorbiting it by name
bumps collisions from 0 to 1 while the deorbit counter stays 0. -/
theorem spec_C9_witness :
    (Simulation.start.add_satellite (Satellite.make "S" 0 0 1 0 100)).deorbited = 0 ∧
    ((Simulation.start.add_satellite (Satellite.make "S" 0 0 1 0 100)).deorbit_satellite "S").2.collisions =
      (Simulation.start.add_satellite (Satellite.make "S" 0 0 1 0 100)).collisions + 1 := by
  constructor
  · exact (spec_C9_deorbit_counter.1 _ (Reachable.add _ _ Reachable.start)).1
  · apply spec_C9_deorbit_counter.2.2.2
    show ((Simulation.start.add_satellite (Satellite.make "S" 0 0 1 0 100)).deorbit_satellite "S").1 = true
    have hd := deorbit_succ (Satellite.make "S" 0 0 1 0 100)
      (by norm_num [Satellite.make, CelestialObject.make])
    have hname : (Satellite.make "S" 0 0 1 0 100).name = "S" := rfl
    have hact : (Satellite.make "S" 0 0 1 0 100).active = true := rfl
    simp [Simulation.deorbit_satellite, Simulation.add_satellite, Simulation.start,
      deorbitInList, hname, hact, hd]

/-- Satellite A of the C7 scenario: at the origin with speed 0. -/
def satA : Satellite := Satellite.make "SAT-A" 0 0 0 0 100

/-- Satellite B of the C7 scenario: at (38, 0) with speed 0 — within the
40-unit satellite-pair threshold of A under the summed-coordinate metric, but
outside the 35-unit small-debris threshold of the debris at the origin. -/
def satB : Satellite := Satellite.make "SAT-B" 38 0 0 0 100

/-- The C7 start state: the empty simulation seeded with A then B. -/
def sim7 : Simulation := (Simulation.start.add_satellite satA).add_satellite satB

/-- The C7 tick's random draws: the spawn roll 0 forces a spawn, and the
generator draws put a small debris at the top corner of the left edge
(position draw 0 within `uniform(0, 600)`, heading draw 0 within
`uniform(-45, 45)`, speed 1, name pool index 0). -/
def tr7 : TickRand :=
  { r := 0,
    gen := { side := Side.left, pos := 0, angle := 0, size := DebrisSize.small,
             speed := 1, nameIdx := 0 } }

/-- Satellite A after the tick's update phase: position unchanged (speed 0),
fuel drained to 99.9, status still nominal. -/
def satA1 : Satellite :=
  { name := "SAT-A", x := 0, y := 0, speed := 0, angle := 0, active := true,
    fuel := 999/10, status := Status.nominal }

/-- Satellite B after the tick's update phase. -/
def satB1 : Satellite :=
  { name := "SAT-B", x := 38, y := 0, speed := 0, angle := 0, active := true,
    fuel := 999/10, status := Status.nominal }

/-- The debris generated during the C7 tick: `Alpha-0`, small, at (0, 0). -/
def debD7 : Debris :=
  { name := "Alpha-0", x := 0, y := 0, speed := 1, angle := 0, active := true,
    size := DebrisSize.small }

/-- Satellite A deactivated. -/
def satA1x : Satellite := { satA1 with active := false }

/-- Satellite B deactivated. -/
def satB1x : Satellite := { satB1 with active := false }

/-- The debris deactivated. -/
def debD7x : Debris := { debD7 with active := false }

/-- Collision event logged when the debris hits satellite A. -/
def evAD7 : String := "COLLISION : SAT-A touché par Alpha-0 !"

/-- Proximity event logged for satellite B and the debris. -/
def evWarn7 : String := "ALERTE : Alpha-0 proche de SAT-B"

/-- Collision event logged for the satellite pair A, B. -/
def evAB7 : String := "COLLISION : SAT-A et SAT-B !"

/-- The C7 state entering the collision pass (after increment, updates and
the debris spawn). -/
def pre7 : Simulation :=
  { satellites := [satA1, satB1], debris_list := [debD7],
    debris_field := { width := AREA_WIDTH, height := AREA_HEIGHT, counter := 1 },
    tick_count := 1, score := 0, collisions := 0, deorbited := 0,
    game_over := false, events := [] }

/-- The collision pass's satellite snapshot for the C7 tick. -/
def snapS7 : List (ℕ × Satellite) := [(0, satA1), (1, satB1)]

/-- The collision pass's debris snapshot for the C7 tick. -/
def snapD7 : List (ℕ × Debris) := [(0, debD7)]

/-- The C7 state after the satellite–debris loop: A and the debris are
deactivated, one collision counted, the A–debris collision event and the
B–debris proximity warning logged.  B is still in the stale snapshot. -/
def mid7 : Simulation :=
  { satellites := [satA1x, satB1], debris_list := [debD7x],
    debris_field := { width := AREA_WIDTH, height := AREA_HEIGHT, counter := 1 },
    tick_count := 1, score := 0, collisions := 1, deorbited := 0,
    game_over := false, events := [evAD7, evWarn7] }

/-- The C7 state after the satellite-pair loop: A is deactivated a second
time together with B, two more collisions counted, the pair event logged. -/
def post7 : Simulation :=
  { satellites := [satA1x, satB1x], debris_list := [debD7x],
    debris_field := { width := AREA_WIDTH, height := AREA_HEIGHT, counter := 1 },
    tick_count := 1, score := 0, collisions := 3, deorbited := 0,
    game_over := false, events := [evAD7, evWarn7, evAB7] }

/-- The C7 end-of-tick state: the dead debris cleaned up, no active satellite
left to score, game over not raised (tick counter 1 ≤ 10). -/
def final7 : Simulation :=
  { satellites := [satA1x, satB1x], debris_list := [],
    debris_field := { width := AREA_WIDTH, height := AREA_HEIGHT, counter := 1 },
    tick_count := 1, score := 0, collisions := 3, deorbited := 0,
    game_over := false, events := [evAD7, evWarn7, evAB7] }

/-- Updating satellite A during the C7 tick (any trig oracle: speed is 0). -/
lemma upd_satA (T : Trig) : satA.update T = satA1 := by
  unfold satA satA1 Satellite.update CelestialObject.update Satellite.updateStatus
    Satellite.make CelestialObject.make
  norm_num

/-- Updating satellite B during the C7 tick (any trig oracle: speed is 0). -/
lemma upd_satB (T : Trig) : satB.update T = satB1 := by
  unfold satB satB1 Satellite.update CelestialObject.update Satellite.updateStatus
    Satellite.make CelestialObject.make
  norm_num

/-- The generator draw of the C7 tick produces exactly `debD7`. -/
lemma gen7 : Simulation.start.debris_field.generate tr7.gen =
    (debD7, { width := AREA_WIDTH, height := AREA_HEIGHT, counter := 1 }) := rfl

/-- The pre-collision phases of the C7 tick reach `pre7`. -/
lemma pre7_eq (T : Trig) :
    Simulation.spawnPhase tr7 (Simulation.updatePhase T (Simulation.incTick sim7)) = pre7 := by
  have h1 : Simulation.updatePhase T (Simulation.incTick sim7) =
      { satellites := [satA1, satB1], debris_list := [],
        debris_field := { width := AREA_WIDTH, height := AREA_HEIGHT, counter := 0 },
        tick_count := 1, score := 0, collisions := 0, deorbited := 0,
        game_over := false, events := [] } := by
    unfold Simulation.updatePhase Simulation.incTick sim7 Simulation.add_satellite Simulation.start
    simp [upd_satA, upd_satB]
  rw [h1]
  unfold Simulation.spawnPhase
  rw [if_pos (by norm_num [tr7])]
  rfl

/-- The satellite snapshot the C7 collision pass takes. -/
lemma snapS7_eq : (withIdx 0 pre7.satellites).filter (fun p => p.2.active) = snapS7 := by
  simp [withIdx, pre7, satA1, satB1, snapS7]

/-- The debris snapshot the C7 collision pass takes. -/
lemma snapD7_eq : (withIdx 0 pre7.debris_list).filter (fun p => p.2.active) = snapD7 := by
  simp [withIdx, pre7, debD7, snapD7]

/-- The satellite–debris loop of the C7 tick: A and the debris collide
(distance 0 < 35) and are deactivated; B misses the debris (38 ≥ 35) but
draws a proximity warning (38 < 80). -/
lemma midphase7 : satDebrisPhase snapS7 snapD7 pre7 = mid7 := by
  unfold satDebrisPhase snapS7 snapD7 satDebrisCheck check_collision
    check_proximity_warning SpaceObject.obj CelestialObject.distSq
    deactivateSatAt deactivateDebAt Debris.danger_radius SATELLITE_RADIUS
    pre7 mid7 satA1 satB1 debD7 satA1x debD7x evAD7 evWarn7
  norm_num [List.foldl]
  repeat' apply And.intro
  all_goals rfl

/-- The satellite-pair loop of the C7 tick over the stale snapshot: A (already
inactive) and B collide (distance 38 < 40), both are deactivated, two more
collisions are counted. -/
lemma satsat7 : satSatPhase snapS7 mid7 = post7 := by
  unfold satSatPhase snapS7 ltPairs satSatCheck check_collision SpaceObject.obj
    CelestialObject.distSq deactivateSatAt SATELLITE_RADIUS
    mid7 post7 satA1 satB1 satA1x satB1x evAB7 evAD7 evWarn7
  norm_num [List.foldl, List.map]
  repeat' apply And.intro
  all_goals rfl

/-- The whole collision pass of the C7 tick. -/
lemma checkAll7 : pre7.checkAllCollisions = post7 := by
  unfold Simulation.checkAllCollisions
  rw [snapS7_eq, snapD7_eq]
  simp only [midphase7, satsat7]

/-- The complete C7 tick (any trig oracle: both satellites have speed 0 and
the debris spawns after the update phase). -/
lemma tick7 (T : Trig) : Simulation.tick T tr7 sim7 = final7 := by
  unfold Simulation.tick
  rw [if_neg (by simp [sim7, Simulation.add_satellite, Simulation.start])]
  rw [pre7_eq T, checkAll7]
  unfold Simulation.cleanupOutOfBounds Simulation.scorePhase numActive post7 final7
    satA1x satB1x satA1 satB1 debD7x debD7 AREA_WIDTH AREA_HEIGHT
  norm_num

/-- C7.  There is a reachable state (`sim7`: the empty simulation seeded with
two speed-0 satellites) from which one `tick()` with well-formed random draws
(`tr7`) deactivates satellite `SAT-A` twice: the satellite–debris loop
deactivates it together with the freshly spawned debris (state `mid7`), and
the satellite-pair loop — iterating over the stale pre-pass snapshot
`snapS7`, which still contains the now-inactive `SAT-A` — deactivates it
again together with `SAT-B`.  The tick logs two collision events naming
`SAT-A` (`evAD7` and `evAB7`) and increments the collision counter by a
total of 3 (1 + 2). -/
theorem spec_C7_double_deactivation :
    ∀ T : Trig,
      Reachable sim7 ∧
      TickRand.Wf tr7 ∧
      Simulation.spawnPhase tr7 (Simulation.updatePhase T (Simulation.incTick sim7)) = pre7 ∧
      (withIdx 0 pre7.satellites).filter (fun p => p.2.active) = snapS7 ∧
      (withIdx 0 pre7.debris_list).filter (fun p => p.2.active) = snapD7 ∧
      satDebrisPhase snapS7 snapD7 pre7 = mid7 ∧
      mid7.satellites.map (fun s => (s.name, s.active)) = [("SAT-A", false), ("SAT-B", true)] ∧
      mid7.collisions = pre7.collisions + 1 ∧
      check_collision (SpaceObject.sat satA1) (SpaceObject.sat satB1) = true ∧
      satSatPhase snapS7 mid7 = post7 ∧
      post7.satellites.map (fun s => (s.name, s.active)) = [("SAT-A", false), ("SAT-B", false)] ∧
      post7.collisions = pre7.collisions + 3 ∧
      post7.events = [evAD7, evWarn7, evAB7] ∧
      Simulation.tick T tr7 sim7 = final7 ∧
      final7.collisions = sim7.collisions + 3 ∧
      final7.events = [evAD7, evWarn7, evAB7] := by
  intro T
  refine ⟨Reachable.add _ _ (Reachable.add _ _ Reachable.start), ?_,
    pre7_eq T, snapS7_eq, snapD7_eq, midphase7, rfl, rfl, ?_, satsat7,
    rfl, rfl, rfl, tick7 T, rfl, rfl⟩
  · norm_num [TickRand.Wf, GenDraw.Wf, tr7, Side.posHi, Side.angleLo, Side.angleHi,
      AREA_WIDTH, AREA_HEIGHT]
  · norm_num [check_collision, SpaceObject.obj, CelestialObject.distSq,
      satA1, satB1, SATELLITE_RADIUS]
